import Mathlib

/-!
Shallow embedding of the viewport controller in
`src/vs/workbench/contrib/accessibility/browser/accessibility.contribution.ts`
(class `ViewLinesWebgl`): the reveal-scroll planner
(`_computeScrollTopToRevealRange`, `_computeMinimumScrolling`,
`onRevealRangeRequest`), the line-width tracker (`_updateLineWidths`,
`_ensureMaxLineWidth`, `onFlushed`), the monospace-assumption checker
(`_checkMonospaceFontAssumptions`) and the windowed lookup helpers
(`getPositionFromDOMInfo`, `getLineWidth`).

JavaScript numbers are modelled as rationals; the `| 0` coercion is modelled
as ECMAScript ToInt32 (truncation toward zero followed by a wrap into
32-bit range) and `Math.ceil` as the integer ceiling.
-/

namespace ViewLinesWebgl

/-- A vertical viewport in pixels (`viewport.top`, `viewport.height`). -/
structure Viewport where
  top : ℚ
  height : ℚ

/-- The seven vertical reveal policies of `viewEvents.VerticalRevealType`. -/
inductive VerticalRevealType where
  | Simple
  | Center
  | CenterIfOutsideViewport
  | Top
  | Bottom
  | NearTop
  | NearTopIfOutsideViewport
deriving DecidableEq, BEq

/-- A reveal range: 1-based line and column bounds. -/
structure Range where
  startLineNumber : ℕ
  startColumn : ℕ
  endLineNumber : ℕ
  endColumn : ℕ

/-- A selection; only the line bounds are consumed by the reveal planner. -/
structure Selection where
  startLineNumber : ℕ
  endLineNumber : ℕ

/-- The `editor.cursorSurroundingLinesStyle` option. -/
inductive CursorSurroundingLinesStyle where
  | default
  | all
deriving DecidableEq, BEq

/-- The scroll animation mode (`ScrollType`). -/
inductive ScrollType where
  | Immediate
  | Smooth
deriving DecidableEq, BEq

/-- The configuration snapshot consumed by `_computeScrollTopToRevealRange`:
line height, horizontal scrollbar height, the surrounding-lines options, the
sticky-scroll options and the host mapping from a line number to its vertical
pixel offset (`viewLayout.getVerticalOffsetForLineNumber`). -/
structure RevealConfig where
  lineHeight : ℚ
  horizontalScrollbarHeight : ℚ
  cursorSurroundingLines : ℚ
  cursorSurroundingLinesStyle : CursorSurroundingLinesStyle
  stickyScrollEnabled : Bool
  maxNumberStickyLines : ℚ
  getVerticalOffsetForLineNumber : ℕ → ℚ

/-- Truncation toward zero, the first step of the ECMAScript ToInt32
coercion applied by `x | 0`. -/
def jsTrunc (q : ℚ) : ℤ :=
  if 0 ≤ q then ⌊q⌋ else ⌈q⌉

/-- ECMAScript ToInt32: truncate toward zero, then wrap into 32-bit range.
This is the exact semantics of `x | 0` on a finite number. -/
def toInt32 (q : ℚ) : ℤ :=
  (jsTrunc q + 2 ^ 31) % 2 ^ 32 - 2 ^ 31

/-- `_computeMinimumScrolling(viewportStart, viewportEnd, boxStart, boxEnd,
revealAtStart, revealAtEnd)`: all four bounds are coerced with `| 0`, then
the minimum scroll that brings the box into view is chosen. -/
def computeMinimumScrolling (viewportStart viewportEnd boxStart boxEnd : ℚ)
    (revealAtStart revealAtEnd : Bool) : ℚ :=
  let vs := toInt32 viewportStart
  let ve := toInt32 viewportEnd
  let bs := toInt32 boxStart
  let be := toInt32 boxEnd
  let viewportLength := ve - vs
  let boxLength := be - bs
  if boxLength < viewportLength then
    -- the box would fit in the viewport
    if revealAtStart then
      (bs : ℚ)
    else if revealAtEnd then
      ((max 0 (be - viewportLength) : ℤ) : ℚ)
    else if bs < vs then
      -- the box is above the viewport
      (bs : ℚ)
    else if be > ve then
      -- the box is below the viewport
      ((max 0 (be - viewportLength) : ℤ) : ℚ)
    else
      (vs : ℚ)
  else
    -- the box would not fit in the viewport: reveal the beginning of the box
    (bs : ℚ)

/-- The claim-side restatement of minimum scrolling, written from the words of
the specification: over integer-truncated viewport and box bounds, if the box
length is strictly smaller than the viewport length, return `boxStart` when
`revealAtStart`, `max 0 (boxEnd - viewportLength)` when `revealAtEnd`,
`boxStart` when the box starts above the viewport,
`max 0 (boxEnd - viewportLength)` when the box ends below the viewport, and
the unchanged `viewportStart` otherwise; if the box is as large as or larger
than the viewport, return `boxStart`. -/
def minimumScrollingSpec (viewportStart viewportEnd boxStart boxEnd : ℚ)
    (revealAtStart revealAtEnd : Bool) : ℚ :=
  let vs := toInt32 viewportStart
  let ve := toInt32 viewportEnd
  let bs := toInt32 boxStart
  let be := toInt32 boxEnd
  if be - bs < ve - vs then
    if revealAtStart then (bs : ℚ)
    else if revealAtEnd then ((max 0 (be - (ve - vs)) : ℤ) : ℚ)
    else if bs < vs then (bs : ℚ)
    else if ve < be then ((max 0 (be - (ve - vs)) : ℤ) : ℚ)
    else (vs : ℚ)
  else (bs : ℚ)

/-- Box construction (lines 771-788 of `_computeScrollTopToRevealRange`):
a non-empty selections list spans the minimum start line to the maximum end
line and is not a single range; otherwise a present range gives the box and
is a single range; otherwise there is no box (the caller returns -1).
The vertical end of the box adds one line height. -/
def revealBox (cfg : RevealConfig) (range : Option Range)
    (selections : Option (List Selection)) : Option (ℚ × ℚ × Bool) :=
  match selections with
  | some (s0 :: rest) =>
    let minLineNumber := rest.foldl (fun acc s => min acc s.startLineNumber) s0.startLineNumber
    let maxLineNumber := rest.foldl (fun acc s => max acc s.endLineNumber) s0.endLineNumber
    some (cfg.getVerticalOffsetForLineNumber minLineNumber,
      cfg.getVerticalOffsetForLineNumber maxLineNumber + cfg.lineHeight,
      false)
  | _ =>
    match range with
    | some r =>
      some (cfg.getVerticalOffsetForLineNumber r.startLineNumber,
        cfg.getVerticalOffsetForLineNumber r.endLineNumber + cfg.lineHeight,
        true)
    | none => none

/-- `shouldIgnoreScrollOff` (line 790): the reveal ignores the scroll-off
setting when the source is the mouse or the reveal is minimal, provided the
surrounding-lines style is the default one. -/
def shouldIgnoreScrollOff (cfg : RevealConfig) (source : Option String)
    (minimalReveal : Bool) : Bool :=
  (source == some "mouse" || minimalReveal) &&
    cfg.cursorSurroundingLinesStyle == CursorSurroundingLinesStyle.default

/-- The padding pair `(paddingTop, paddingBottom)` of
`_computeScrollTopToRevealRange` (lines 792-812). -/
def revealPadding (cfg : RevealConfig) (viewportHeight : ℚ) (source : Option String)
    (minimalReveal : Bool) (verticalType : VerticalRevealType) : ℚ × ℚ :=
  let base : ℚ × ℚ :=
    if !(shouldIgnoreScrollOff cfg source minimalReveal) then
      let context := min (viewportHeight / cfg.lineHeight / 2) cfg.cursorSurroundingLines
      let paddingTop :=
        if cfg.stickyScrollEnabled then
          (max context cfg.maxNumberStickyLines) * cfg.lineHeight
        else
          context * cfg.lineHeight
      (paddingTop, (max 0 (context - 1)) * cfg.lineHeight)
    else
      -- reveal one more line above when dragging (unless the reveal is minimal)
      (if !minimalReveal then cfg.lineHeight else 0, 0)
  if verticalType = VerticalRevealType.Simple ∨ verticalType = VerticalRevealType.Bottom then
    -- reveal one line more when the last line would be covered by the scrollbar
    (base.1, base.2 + (if minimalReveal then cfg.horizontalScrollbarHeight else cfg.lineHeight))
  else
    base

/-- The padded box: the raw box expanded by the padding on both sides
(lines 814-815), together with the single-range marker. -/
def paddedBox (cfg : RevealConfig) (viewportHeight : ℚ) (source : Option String)
    (minimalReveal : Bool) (range : Option Range)
    (selections : Option (List Selection)) (verticalType : VerticalRevealType) :
    Option (ℚ × ℚ × Bool) :=
  match revealBox cfg range selections with
  | none => none
  | some (boxStartY, boxEndY, boxIsSingleRange) =>
    let p := revealPadding cfg viewportHeight source minimalReveal verticalType
    some (boxStartY - p.1, boxEndY + p.2, boxIsSingleRange)

/-- `_computeScrollTopToRevealRange(viewport, source, minimalReveal, range,
selections, verticalType)`: returns the desired scroll top, or the sentinel
-1 to abort the reveal. -/
def computeScrollTopToRevealRange (cfg : RevealConfig) (viewport : Viewport)
    (source : Option String) (minimalReveal : Bool) (range : Option Range)
    (selections : Option (List Selection)) (verticalType : VerticalRevealType) : ℚ :=
  let viewportStartY := viewport.top
  let viewportHeight := viewport.height
  let viewportEndY := viewportStartY + viewportHeight
  match paddedBox cfg viewportHeight source minimalReveal range selections verticalType with
  | none => -1
  | some (boxStartY, boxEndY, boxIsSingleRange) =>
    if boxEndY - boxStartY > viewportHeight then
      -- the box is larger than the viewport ... scroll to its top
      if boxIsSingleRange = false then
        -- do not reveal multiple cursors if there are more than fit the viewport
        -1
      else
        boxStartY
    else if verticalType = VerticalRevealType.NearTop ∨
        verticalType = VerticalRevealType.NearTopIfOutsideViewport then
      if verticalType = VerticalRevealType.NearTopIfOutsideViewport ∧
          viewportStartY ≤ boxStartY ∧ boxEndY ≤ viewportEndY then
        -- box is already in the viewport ... do nothing
        viewportStartY
      else
        -- a gap that is 20 percent of the viewport, with a minimum of 5 lines
        let desiredGapAbove := max (5 * cfg.lineHeight) (viewportHeight * (1 / 5))
        let desiredScrollTop := boxStartY - desiredGapAbove
        let minScrollTop := boxEndY - viewportHeight
        max minScrollTop desiredScrollTop
    else if verticalType = VerticalRevealType.Center ∨
        verticalType = VerticalRevealType.CenterIfOutsideViewport then
      if verticalType = VerticalRevealType.CenterIfOutsideViewport ∧
          viewportStartY ≤ boxStartY ∧ boxEndY ≤ viewportEndY then
        -- box is already in the viewport ... do nothing
        viewportStartY
      else
        -- box is outside the viewport ... center it
        max 0 ((boxStartY + boxEndY) / 2 - viewportHeight / 2)
    else
      computeMinimumScrolling viewportStartY viewportEndY boxStartY boxEndY
        (verticalType == VerticalRevealType.Top) (verticalType == VerticalRevealType.Bottom)

/-- A reveal range request event (`ViewRevealRangeRequestEvent`). -/
structure RevealRequest where
  source : Option String
  minimalReveal : Bool
  range : Option Range
  selections : Option (List Selection)
  verticalType : VerticalRevealType
  revealHorizontal : Bool
  scrollType : ScrollType

/-- The view-layout collaborators read by `onRevealRangeRequest`: the future
viewport, the current scroll top and the host scroll-top validation. -/
structure ViewLayoutModel where
  futureViewport : Viewport
  currentScrollTop : ℚ
  validateScrollTop : ℚ → ℚ

/-- `onRevealRangeRequest` (lines 461-496): computes the desired scroll top
for the future viewport; on the sentinel -1 the request is aborted and no
scroll position is committed (`none`).  Otherwise the committed effect is the
validated scroll top, an optional scroll-left override (0 for a horizontal
reveal of a multi-line range) and the possibly downgraded scroll type. -/
def onRevealRangeRequest (cfg : RevealConfig) (vl : ViewLayoutModel)
    (e : RevealRequest) : Option (ℚ × Option ℚ × ScrollType) :=
  let desiredScrollTop := computeScrollTopToRevealRange cfg vl.futureViewport
    e.source e.minimalReveal e.range e.selections e.verticalType
  if desiredScrollTop = -1 then
    -- marker to abort the reveal range request
    none
  else
    let newScrollTop := vl.validateScrollTop desiredScrollTop
    let newScrollLeft : Option ℚ :=
      if e.revealHorizontal then
        match e.range with
        | some r =>
          if r.startLineNumber ≠ r.endLineNumber then some 0 else none
        | none => none
      else
        none
    let scrollTopDelta := |vl.currentScrollTop - newScrollTop|
    let scrollType :=
      if scrollTopDelta ≤ cfg.lineHeight then ScrollType.Immediate else e.scrollType
    some (newScrollTop, newScrollLeft, scrollType)

/-- The per-line data read from a `ViewLine` by the width tracker, the
monospace checker and the width query: `getWidth()`, `getWidthIsFast()`,
`needsMonospaceFontCheck()` and `monospaceAssumptionsAreValid()`. -/
structure ViewLineData where
  width : ℚ
  widthIsFast : Bool
  needsMonospaceFontCheck : Bool
  monospaceAssumptionsAreValid : Bool

/-- The currently rendered window of the `VisibleLinesCollection`: its start
and end line numbers, the per-line data, the DOM node identifier of each
rendered line, and the abstract `getColumnOfNodeOffset` reading
(line number, node, offset). -/
structure LinesWindow where
  rendStart : ℕ
  rendEnd : ℕ
  line : ℕ → ViewLineData
  domNode : ℕ → ℕ
  columnOfNodeOffset : ℕ → ℕ → ℕ → ℤ

/-- The view-model collaborators read by `getPositionFromDOMInfo`:
`getLineCount`, `getLineMaxColumn` and `getLineMinColumn`. -/
structure ViewModelData where
  lineCount : ℕ
  lineMaxColumn : ℕ → ℕ
  lineMinColumn : ℕ → ℕ

/-- A position: a 1-based line number and a column. -/
structure Position where
  lineNumber : ℕ
  column : ℤ
deriving DecidableEq

/-- The line numbers of the rendered window, in ascending order: the loop
`for (lineNumber = rendStartLineNumber; lineNumber <= rendEndLineNumber; ...)`. -/
def windowLineNumbers (w : LinesWindow) : List ℕ :=
  List.range' w.rendStart (w.rendEnd + 1 - w.rendStart)

/-- `_ensureMaxLineWidth(lineWidth)` (lines 755-761): take the ceiling of the
candidate; when it strictly exceeds the tracked maximum, store it and notify
the host (`setMaxLineWidth`).  Returns the new maximum and whether the host
was notified. -/
def ensureMaxLineWidth (maxLineWidth : ℤ) (lineWidth : ℚ) : ℤ × Bool :=
  let iLineWidth := ⌈lineWidth⌉
  if maxLineWidth < iLineWidth then
    (iLineWidth, true)
  else
    (maxLineWidth, false)

/-- The `_maxLineWidth` effect of `onFlushed` (line 449): an unconditional
reset to 0. -/
def onFlushedMaxLineWidth (_maxLineWidth : ℤ) : ℤ :=
  0

/-- One iteration of the `_updateLineWidths` loop (lines 685-695): in fast
mode a line whose width is not fast to compute is skipped and clears
`allWidthsComputed`; otherwise the local maximum absorbs the line width. -/
def lineWidthStep (w : LinesWindow) (fast : Bool) (acc : ℚ × Bool)
    (lineNumber : ℕ) : ℚ × Bool :=
  let visibleLine := w.line lineNumber
  if fast && !visibleLine.widthIsFast then
    (acc.1, false)
  else
    (max acc.1 visibleLine.width, acc.2)

/-- The window scan of `_updateLineWidths` (lines 683-695): the running local
maximum starts at 1 and `allWidthsComputed` at true.  Returns
`(localMaxLineWidth, allWidthsComputed)`. -/
def scanLineWidths (w : LinesWindow) (fast : Bool) : ℚ × Bool :=
  (windowLineNumbers w).foldl (lineWidthStep w fast) (1, true)

/-- `_updateLineWidths(fast)` (lines 679-705): scan the window; when the
whole document is windowed and every width was computed, reset the tracked
maximum to 0; then raise it to the observed local maximum.  Returns the new
tracked maximum and `allWidthsComputed`. -/
def updateLineWidths (w : LinesWindow) (lineCount : ℕ) (fast : Bool)
    (maxLineWidth : ℤ) : ℤ × Bool :=
  let s := scanLineWidths w fast
  let m1 := if s.2 && (w.rendStart == 1) && (w.rendEnd == lineCount) then 0 else maxLineWidth
  ((ensureMaxLineWidth m1 s.1).1, s.2)

/-- One iteration of the selection loop of `_checkMonospaceFontAssumptions`
(lines 715-724): a line that needs the monospace check replaces the running
champion when it is strictly wider. -/
def monospaceStep (w : LinesWindow) (acc : ℤ × ℚ) (lineNumber : ℕ) : ℤ × ℚ :=
  let visibleLine := w.line lineNumber
  if visibleLine.needsMonospaceFontCheck then
    if acc.2 < visibleLine.width then ((lineNumber : ℤ), visibleLine.width) else acc
  else
    acc

/-- The selection loop of `_checkMonospaceFontAssumptions` (lines 711-724):
fold over the windowed lines keeping the number and width of the widest line
that needs the monospace check, starting from `(-1, -1)`. -/
def selectLongestLine (w : LinesWindow) : ℤ × ℚ :=
  (windowLineNumbers w).foldl (monospaceStep w) (-1, -1)

/-- `_checkMonospaceFontAssumptions` (lines 707-736), with its effect
modelled as the list of line numbers on which
`onMonospaceAssumptionsInvalidated` is called: empty when no windowed line
needs the check or when the selected widest line validates, and the whole
window otherwise. -/
def checkMonospaceFontAssumptions (w : LinesWindow) : List ℕ :=
  let sel := selectLongestLine w
  if sel.1 = -1 then
    []
  else if (w.line sel.1.toNat).monospaceAssumptionsAreValid then
    []
  else
    windowLineNumbers w

/-- `_getLineNumberFor(domNode)` (lines 567-577): the first windowed line
whose DOM node matches, or -1 when none does. -/
def getLineNumberFor (w : LinesWindow) (node : ℕ) : ℤ :=
  match (windowLineNumbers w).find? (fun lineNumber => w.domNode lineNumber == node) with
  | some lineNumber => (lineNumber : ℤ)
  | none => -1

/-- `getPositionFromDOMInfo(spanNode, offset)` (lines 516-552).  The DOM walk
`_getViewLineDomNode` is abstracted into the optional view-line node
argument; a `none` result models a returned `null`. -/
def getPositionFromDOMInfo (vm : ViewModelData) (w : LinesWindow)
    (viewLineDomNode : Option ℕ) (offset : ℕ) : Option Position :=
  match viewLineDomNode with
  | none =>
    -- could not find the view line node
    none
  | some node =>
    let lineNumber := getLineNumberFor w node
    if lineNumber = -1 then
      -- could not find the view line node
      none
    else if lineNumber < 1 ∨ lineNumber > (vm.lineCount : ℤ) then
      -- the line number is outside the document range
      none
    else if vm.lineMaxColumn lineNumber.toNat = 1 then
      -- line is empty
      some ⟨lineNumber.toNat, 1⟩
    else if lineNumber < (w.rendStart : ℤ) ∨ lineNumber > (w.rendEnd : ℤ) then
      -- could not find the line
      none
    else
      let column := w.columnOfNodeOffset lineNumber.toNat node offset
      let minColumn : ℤ := vm.lineMinColumn lineNumber.toNat
      some ⟨lineNumber.toNat, if column < minColumn then minColumn else column⟩

/-- `getLineWidth(lineNumber)` (lines 579-588): the sentinel -1 for a line
outside the rendered window, the measured width otherwise. -/
def getLineWidth (w : LinesWindow) (lineNumber : ℕ) : ℚ :=
  if lineNumber < w.rendStart ∨ lineNumber > w.rendEnd then
    -- could not find the line
    -1
  else
    (w.line lineNumber).width

/-! ## Concrete witness data -/

/-- A concrete configuration used to witness the reveal theorems: line
height 20, no surrounding lines, default style, no sticky scroll, each line
20 pixels below the previous one. -/
def wConfig : RevealConfig :=
  { lineHeight := 20
  , horizontalScrollbarHeight := 14
  , cursorSurroundingLines := 0
  , cursorSurroundingLinesStyle := CursorSurroundingLinesStyle.default
  , stickyScrollEnabled := false
  , maxNumberStickyLines := 0
  , getVerticalOffsetForLineNumber := fun n => 20 * (n : ℚ) }

/-- A concrete view layout used to witness the caller-side abort. -/
def wLayout : ViewLayoutModel :=
  { futureViewport := ⟨0, 100⟩
  , currentScrollTop := 0
  , validateScrollTop := fun q => q }

/-- A concrete reveal request with neither a range nor selections. -/
def wRequest : RevealRequest :=
  { source := none
  , minimalReveal := false
  , range := none
  , selections := none
  , verticalType := VerticalRevealType.Simple
  , revealHorizontal := false
  , scrollType := ScrollType.Smooth }

/-- A concrete configuration on which the padding of claim C6 is refuted:
line height 20, five surrounding lines, default style, no sticky scroll. -/
def c6Config : RevealConfig :=
  { lineHeight := 20
  , horizontalScrollbarHeight := 14
  , cursorSurroundingLines := 5
  , cursorSurroundingLinesStyle := CursorSurroundingLinesStyle.default
  , stickyScrollEnabled := false
  , maxNumberStickyLines := 0
  , getVerticalOffsetForLineNumber := fun n => 20 * (n : ℚ) }

/-- A concrete two-line rendered window used as a witness: line `n` has
width `n`, fast width, needs the monospace check and validates. -/
def wWindow : LinesWindow :=
  { rendStart := 1
  , rendEnd := 2
  , line := fun n =>
      { width := (n : ℚ)
      , widthIsFast := true
      , needsMonospaceFontCheck := true
      , monospaceAssumptionsAreValid := true }
  , domNode := fun n => n
  , columnOfNodeOffset := fun _ _ _ => 1 }

/-- A concrete view model used as a witness for the DOM lookups. -/
def wViewModel : ViewModelData :=
  { lineCount := 10
  , lineMaxColumn := fun _ => 2
  , lineMinColumn := fun _ => 1 }

/-! ## Theorems -/

/-- Claim C3: when `range` is null and `selections` is null or empty,
`_computeScrollTopToRevealRange` returns the sentinel -1 for every viewport,
source, minimal-reveal flag and vertical reveal type, and
`onRevealRangeRequest` treats -1 as abort: it commits no scroll change. -/
theorem c3_abort_when_no_box
    (cfg : RevealConfig) (viewport : Viewport) (source : Option String)
    (minimalReveal : Bool) (verticalType : VerticalRevealType)
    (selections : Option (List Selection))
    (hsel : selections = none ∨ selections = some [])
    (vl : ViewLayoutModel) (e : RevealRequest)
    (her : e.range = none) (hes : e.selections = none ∨ e.selections = some []) :
    computeScrollTopToRevealRange cfg viewport source minimalReveal none selections
      verticalType = -1 ∧
    onRevealRangeRequest cfg vl e = none := by
  have habort : ∀ (sel : Option (List Selection)), sel = none ∨ sel = some [] →
      ∀ (vp : Viewport) (src : Option String) (mr : Bool) (vt : VerticalRevealType),
      computeScrollTopToRevealRange cfg vp src mr none sel vt = -1 := by
    rintro sel (rfl | rfl) vp src mr vt <;>
      simp [computeScrollTopToRevealRange, paddedBox, revealBox]
  refine ⟨habort selections hsel viewport source minimalReveal verticalType, ?_⟩
  rw [onRevealRangeRequest, her, if_pos]
  exact habort e.selections hes vl.futureViewport e.source e.minimalReveal e.verticalType

/-- Claim C1: when the padded box is strictly taller than the viewport,
`_computeScrollTopToRevealRange` returns -1 for a box derived from a
selections list with two or more selections, and returns the padded box top
for a box derived from a single range. -/
theorem c1_oversized_box :
    (∀ (cfg : RevealConfig) (viewport : Viewport) (source : Option String)
      (minimalReveal : Bool) (range : Option Range) (l : List Selection)
      (verticalType : VerticalRevealType) (bs be : ℚ) (single : Bool),
      2 ≤ l.length →
      paddedBox cfg viewport.height source minimalReveal range (some l) verticalType =
        some (bs, be, single) →
      be - bs > viewport.height →
      computeScrollTopToRevealRange cfg viewport source minimalReveal range (some l)
        verticalType = -1) ∧
    (∀ (cfg : RevealConfig) (viewport : Viewport) (source : Option String)
      (minimalReveal : Bool) (r : Range) (verticalType : VerticalRevealType)
      (bs be : ℚ) (single : Bool),
      paddedBox cfg viewport.height source minimalReveal (some r) none verticalType =
        some (bs, be, single) →
      be - bs > viewport.height →
      computeScrollTopToRevealRange cfg viewport source minimalReveal (some r) none
        verticalType = bs) := by
  constructor
  · intro cfg viewport source minimalReveal range l verticalType bs be single hlen hpb hbig
    match l, hlen with
    | s0 :: rest, _ =>
      have hsingle : single = false := by
        rw [paddedBox, revealBox] at hpb
        simp only [Option.some.injEq, Prod.mk.injEq] at hpb
        exact hpb.2.2.symm
      subst hsingle
      rw [computeScrollTopToRevealRange, hpb]
      simp [hbig]
  · intro cfg viewport source minimalReveal r verticalType bs be single hpb hbig
    have hsingle : single = true := by
      simp only [paddedBox, revealBox, Option.some.injEq, Prod.mk.injEq] at hpb
      exact hpb.2.2.symm
    subst hsingle
    rw [computeScrollTopToRevealRange, hpb]
    simp [hbig]

/-- Claim C2: for the Simple, Top and Bottom policies the result is
`_computeMinimumScrolling` over the viewport and padded box bounds with
`revealAtStart` for Top and `revealAtEnd` for Bottom, and
`_computeMinimumScrolling` itself equals the case analysis of the claim over
the integer-truncated bounds: a box strictly smaller than the viewport gives
`boxStart` when `revealAtStart`, `max 0 (boxEnd - viewportLength)` when
`revealAtEnd`, `boxStart` when the box starts above the viewport,
`max 0 (boxEnd - viewportLength)` when the box ends below, and the unchanged
`viewportStart` otherwise; a box as large as or larger than the viewport
gives `boxStart`. -/
theorem c2_minimum_scrolling :
    (∀ (viewportStart viewportEnd boxStart boxEnd : ℚ) (revealAtStart revealAtEnd : Bool),
      computeMinimumScrolling viewportStart viewportEnd boxStart boxEnd
        revealAtStart revealAtEnd =
      minimumScrollingSpec viewportStart viewportEnd boxStart boxEnd
        revealAtStart revealAtEnd) ∧
    (∀ (cfg : RevealConfig) (viewport : Viewport) (source : Option String)
      (minimalReveal : Bool) (range : Option Range)
      (selections : Option (List Selection)) (verticalType : VerticalRevealType)
      (bs be : ℚ) (single : Bool),
      (verticalType = VerticalRevealType.Simple ∨ verticalType = VerticalRevealType.Top ∨
        verticalType = VerticalRevealType.Bottom) →
      paddedBox cfg viewport.height source minimalReveal range selections verticalType =
        some (bs, be, single) →
      ¬(be - bs > viewport.height) →
      computeScrollTopToRevealRange cfg viewport source minimalReveal range selections
        verticalType =
      computeMinimumScrolling viewport.top (viewport.top + viewport.height) bs be
        (verticalType == VerticalRevealType.Top)
        (verticalType == VerticalRevealType.Bottom)) := by
  constructor
  · intro viewportStart viewportEnd boxStart boxEnd revealAtStart revealAtEnd
    rfl
  · intro cfg viewport source minimalReveal range selections verticalType bs be single
      hvt hpb hfit
    rw [computeScrollTopToRevealRange, hpb]
    rcases hvt with rfl | rfl | rfl <;> simp [hfit]

/-- Claim C4: for the CenterIfOutsideViewport and NearTopIfOutsideViewport
policies, a padded box that fits in the viewport and lies fully inside it
produces exactly the current viewport top: no movement. -/
theorem c4_already_visible_noop
    (cfg : RevealConfig) (viewport : Viewport) (source : Option String)
    (minimalReveal : Bool) (range : Option Range)
    (selections : Option (List Selection)) (verticalType : VerticalRevealType)
    (bs be : ℚ) (single : Bool)
    (hvt : verticalType = VerticalRevealType.CenterIfOutsideViewport ∨
      verticalType = VerticalRevealType.NearTopIfOutsideViewport)
    (hpb : paddedBox cfg viewport.height source minimalReveal range selections
      verticalType = some (bs, be, single))
    (hfit : be - bs ≤ viewport.height)
    (htop : viewport.top ≤ bs) (hbot : be ≤ viewport.top + viewport.height) :
    computeScrollTopToRevealRange cfg viewport source minimalReveal range selections
      verticalType = viewport.top := by
  rw [computeScrollTopToRevealRange, hpb]
  rcases hvt with rfl | rfl <;> simp [not_lt.mpr hfit, htop, hbot]

/-- Claim C5: for the NearTop and NearTopIfOutsideViewport policies, when the
padded box fits in the viewport and the already-visible no-op case does not
apply, the result is `max (boxBottom - viewportHeight) (boxTop - gap)` with
`gap = max (5 * lineHeight) (viewportHeight / 5)`. -/
theorem c5_near_top_target
    (cfg : RevealConfig) (viewport : Viewport) (source : Option String)
    (minimalReveal : Bool) (range : Option Range)
    (selections : Option (List Selection)) (verticalType : VerticalRevealType)
    (bs be : ℚ) (single : Bool)
    (hvt : verticalType = VerticalRevealType.NearTop ∨
      (verticalType = VerticalRevealType.NearTopIfOutsideViewport ∧
        ¬(viewport.top ≤ bs ∧ be ≤ viewport.top + viewport.height)))
    (hpb : paddedBox cfg viewport.height source minimalReveal range selections
      verticalType = some (bs, be, single))
    (hfit : be - bs ≤ viewport.height) :
    computeScrollTopToRevealRange cfg viewport source minimalReveal range selections
      verticalType =
    max (be - viewport.height)
      (bs - max (5 * cfg.lineHeight) (viewport.height * (1 / 5))) := by
  rw [computeScrollTopToRevealRange, hpb]
  rcases hvt with rfl | ⟨rfl, hout⟩
  · simp [not_lt.mpr hfit]
  · simp only [not_lt.mpr hfit]
    rw [if_neg (by simp), if_pos (by simp), if_neg (by simpa using hout)]

/-- Claim C6 is false as stated: with a viewport of height 40, line height 20
and five surrounding lines, the request does not ignore scroll-off, yet the
padding below the box is 0 and not
`max 0 (surroundingLinesSetting - 1) * lineHeight = 80`: the code computes
the padding from `min (viewportHeight / lineHeight / 2) surroundingLines`,
not from the raw setting. -/
theorem c6_counterexample :
    shouldIgnoreScrollOff c6Config none false = false ∧
    (revealPadding c6Config 40 none false VerticalRevealType.Top).2 = 0 ∧
    (max 0 (c6Config.cursorSurroundingLines - 1)) * c6Config.lineHeight = 80 := by
  refine ⟨by decide, ?_, by norm_num [c6Config]⟩
  rw [revealPadding]
  simp only [show (VerticalRevealType.Top = VerticalRevealType.Simple ∨
    VerticalRevealType.Top = VerticalRevealType.Bottom) = False from by simp]
  norm_num [shouldIgnoreScrollOff, c6Config]

/-- Claim C6 as amended: when the request does not ignore scroll-off, the
padding below the box is `max 0 (context - 1) * lineHeight` where
`context = min (viewportHeight / lineHeight / 2) surroundingLinesSetting`;
additionally, for the Simple and Bottom vertical types one extra line height
is added (replaced by the horizontal scrollbar height when the reveal is
minimal). -/
theorem c6_padding_bottom
    (cfg : RevealConfig) (viewportHeight : ℚ) (source : Option String)
    (minimalReveal : Bool) (verticalType : VerticalRevealType)
    (h : shouldIgnoreScrollOff cfg source minimalReveal = false) :
    (revealPadding cfg viewportHeight source minimalReveal verticalType).2 =
      (max 0 (min (viewportHeight / cfg.lineHeight / 2) cfg.cursorSurroundingLines - 1)) *
        cfg.lineHeight +
      (if verticalType = VerticalRevealType.Simple ∨
          verticalType = VerticalRevealType.Bottom then
        (if minimalReveal then cfg.horizontalScrollbarHeight else cfg.lineHeight)
      else 0) := by
  rw [revealPadding, h]
  split <;> simp

/-- Witness for claim C3 at a concrete empty request. -/
theorem c3_witness :
    ((none : Option (List Selection)) = none ∨ (none : Option (List Selection)) = some []) ∧
    (computeScrollTopToRevealRange wConfig ⟨0, 100⟩ none false none none
      VerticalRevealType.Simple = -1 ∧
     onRevealRangeRequest wConfig wLayout wRequest = none) :=
  ⟨Or.inl rfl,
    c3_abort_when_no_box wConfig ⟨0, 100⟩ none false VerticalRevealType.Simple none
      (Or.inl rfl) wLayout wRequest rfl (Or.inl rfl)⟩

/-- Witness for claim C1: a two-selection box of height 20 in a viewport of
height 10 aborts, and the same box from a single range scrolls to its top. -/
theorem c1_witness :
    2 ≤ ([⟨2, 2⟩, ⟨2, 2⟩] : List Selection).length ∧
    paddedBox wConfig (10 : ℚ) none false none (some [⟨2, 2⟩, ⟨2, 2⟩])
      VerticalRevealType.Top = some (40, 60, false) ∧
    (((60 : ℚ) - 40 > (10 : ℚ)) ∧
      computeScrollTopToRevealRange wConfig ⟨0, 10⟩ none false none
        (some [⟨2, 2⟩, ⟨2, 2⟩]) VerticalRevealType.Top = -1) ∧
    computeScrollTopToRevealRange wConfig ⟨0, 10⟩ none false
      (some ⟨2, 1, 2, 1⟩) none VerticalRevealType.Top = 40 := by
  have hpb1 : paddedBox wConfig (10 : ℚ) none false none (some [⟨2, 2⟩, ⟨2, 2⟩])
      VerticalRevealType.Top = some (40, 60, false) := by
    simp only [paddedBox, revealBox, revealPadding, shouldIgnoreScrollOff, wConfig]
    norm_num [min_def, max_def] <;> simp
  have hpb2 : paddedBox wConfig (10 : ℚ) none false (some ⟨2, 1, 2, 1⟩) none
      VerticalRevealType.Top = some (40, 60, true) := by
    simp only [paddedBox, revealBox, revealPadding, shouldIgnoreScrollOff, wConfig]
    norm_num [min_def, max_def] <;> simp
  refine ⟨by norm_num, hpb1, ⟨by norm_num, ?_⟩, ?_⟩
  · exact c1_oversized_box.1 wConfig ⟨0, 10⟩ none false none [⟨2, 2⟩, ⟨2, 2⟩]
      VerticalRevealType.Top 40 60 false (by norm_num) hpb1 (by norm_num)
  · have h := c1_oversized_box.2 wConfig ⟨0, 10⟩ none false ⟨2, 1, 2, 1⟩
      VerticalRevealType.Top 40 60 true hpb2 (by norm_num)
    exact h

/-- Witness for claim C2: a Simple reveal of a small box dispatches to
minimum scrolling. -/
theorem c2_witness :
    paddedBox wConfig (100 : ℚ) none false (some ⟨1, 1, 2, 1⟩) none
      VerticalRevealType.Simple = some (20, 80, true) ∧
    ¬((80 : ℚ) - 20 > (100 : ℚ)) ∧
    computeScrollTopToRevealRange wConfig ⟨0, 100⟩ none false (some ⟨1, 1, 2, 1⟩) none
      VerticalRevealType.Simple =
      computeMinimumScrolling 0 (0 + 100) 20 80
        (VerticalRevealType.Simple == VerticalRevealType.Top)
        (VerticalRevealType.Simple == VerticalRevealType.Bottom) := by
  have hpb : paddedBox wConfig (100 : ℚ) none false (some ⟨1, 1, 2, 1⟩) none
      VerticalRevealType.Simple = some (20, 80, true) := by
    simp only [paddedBox, revealBox, revealPadding, shouldIgnoreScrollOff, wConfig]
    norm_num [min_def, max_def] <;> simp
  exact ⟨hpb, by norm_num,
    c2_minimum_scrolling.2 wConfig ⟨0, 100⟩ none false (some ⟨1, 1, 2, 1⟩) none
      VerticalRevealType.Simple 20 80 true (Or.inl rfl) hpb (by norm_num)⟩

/-- Witness for claim C4: a box already inside the viewport under
CenterIfOutsideViewport produces no movement. -/
theorem c4_witness :
    paddedBox wConfig (100 : ℚ) none false (some ⟨1, 1, 2, 1⟩) none
      VerticalRevealType.CenterIfOutsideViewport = some (20, 60, true) ∧
    ((60 : ℚ) - 20 ≤ (100 : ℚ) ∧ (0 : ℚ) ≤ 20 ∧ (60 : ℚ) ≤ 0 + 100) ∧
    computeScrollTopToRevealRange wConfig ⟨0, 100⟩ none false (some ⟨1, 1, 2, 1⟩) none
      VerticalRevealType.CenterIfOutsideViewport = 0 := by
  have hpb : paddedBox wConfig (100 : ℚ) none false (some ⟨1, 1, 2, 1⟩) none
      VerticalRevealType.CenterIfOutsideViewport = some (20, 60, true) := by
    simp only [paddedBox, revealBox, revealPadding, shouldIgnoreScrollOff, wConfig]
    norm_num [min_def, max_def] <;> simp
  exact ⟨hpb, ⟨by norm_num, by norm_num, by norm_num⟩,
    c4_already_visible_noop wConfig ⟨0, 100⟩ none false (some ⟨1, 1, 2, 1⟩) none
      VerticalRevealType.CenterIfOutsideViewport 20 60 true (Or.inl rfl) hpb
      (by norm_num) (by norm_num) (by norm_num)⟩

/-- Witness for claim C5: a NearTop reveal of a small box lands at the
gap-above target. -/
theorem c5_witness :
    paddedBox wConfig (100 : ℚ) none false (some ⟨1, 1, 2, 1⟩) none
      VerticalRevealType.NearTop = some (20, 60, true) ∧
    ((60 : ℚ) - 20 ≤ (100 : ℚ)) ∧
    computeScrollTopToRevealRange wConfig ⟨0, 100⟩ none false (some ⟨1, 1, 2, 1⟩) none
      VerticalRevealType.NearTop =
      max ((60 : ℚ) - 100) (20 - max (5 * wConfig.lineHeight) (100 * (1 / 5))) := by
  have hpb : paddedBox wConfig (100 : ℚ) none false (some ⟨1, 1, 2, 1⟩) none
      VerticalRevealType.NearTop = some (20, 60, true) := by
    simp only [paddedBox, revealBox, revealPadding, shouldIgnoreScrollOff, wConfig]
    norm_num [min_def, max_def] <;> simp
  exact ⟨hpb, by norm_num,
    c5_near_top_target wConfig ⟨0, 100⟩ none false (some ⟨1, 1, 2, 1⟩) none
      VerticalRevealType.NearTop 20 60 true (Or.inl rfl) hpb (by norm_num)⟩

/-- Witness for the amended claim C6 at a concrete non-ignoring request. -/
theorem c6_witness :
    shouldIgnoreScrollOff wConfig none false = false ∧
    (revealPadding wConfig 100 none false VerticalRevealType.Top).2 =
      (max 0 (min ((100 : ℚ) / wConfig.lineHeight / 2) wConfig.cursorSurroundingLines - 1)) *
        wConfig.lineHeight +
      (if VerticalRevealType.Top = VerticalRevealType.Simple ∨
          VerticalRevealType.Top = VerticalRevealType.Bottom then
        (if false then wConfig.horizontalScrollbarHeight else wConfig.lineHeight)
      else 0) :=
  ⟨by decide, c6_padding_bottom wConfig 100 none false VerticalRevealType.Top (by decide)⟩

/-! ## Width tracker -/

/-- `_ensureMaxLineWidth` never lowers the tracked maximum. -/
lemma le_ensureMaxLineWidth (m : ℤ) (lw : ℚ) : m ≤ (ensureMaxLineWidth m lw).1 := by
  rw [ensureMaxLineWidth]
  split
  · next h => exact le_of_lt h
  · exact le_refl m

/-- A whole sequence of `_ensureMaxLineWidth` calls never lowers the tracked
maximum. -/
lemma le_foldl_ensureMaxLineWidth (ws : List ℚ) :
    ∀ m : ℤ, m ≤ ws.foldl (fun acc lw => (ensureMaxLineWidth acc lw).1) m := by
  induction ws with
  | nil => intro m; simp
  | cons a t ih =>
    intro m
    rw [List.foldl_cons]
    exact le_trans (le_ensureMaxLineWidth m a) (ih _)

/-- The local maximum of the `_updateLineWidths` scan never drops below its
seed. -/
lemma foldl_lineWidthStep_fst_le (w : LinesWindow) (fast : Bool) :
    ∀ (l : List ℕ) (acc : ℚ × Bool), acc.1 ≤ (l.foldl (lineWidthStep w fast) acc).1 := by
  intro l
  induction l with
  | nil => intro acc; exact le_refl _
  | cons n t ih =>
    intro acc
    rw [List.foldl_cons]
    refine le_trans ?_ (ih (lineWidthStep w fast acc n))
    rw [lineWidthStep]
    split
    · exact le_refl _
    · exact le_max_left _ _

/-- Claim C7: `_ensureMaxLineWidth` is non-decreasing over any sequence of
calls, the host is notified exactly when the ceiling of the candidate
strictly exceeds the tracked maximum, `onFlushed` resets the maximum to 0,
a width-update pass over the full document window with all widths computed
resets the running maximum to 0 before applying the freshly observed local
maximum, and any other width-update pass never lowers the maximum. -/
theorem c7_max_line_width_tracking :
    (∀ (ws : List ℚ) (m : ℤ),
      m ≤ ws.foldl (fun acc lw => (ensureMaxLineWidth acc lw).1) m) ∧
    (∀ (m : ℤ) (lw : ℚ), (ensureMaxLineWidth m lw).2 = decide (m < ⌈lw⌉)) ∧
    (∀ m : ℤ, onFlushedMaxLineWidth m = 0) ∧
    (∀ (w : LinesWindow) (lineCount : ℕ) (fast : Bool) (m : ℤ),
      (scanLineWidths w fast).2 = true → w.rendStart = 1 → w.rendEnd = lineCount →
      (updateLineWidths w lineCount fast m).1 =
        (ensureMaxLineWidth 0 (scanLineWidths w fast).1).1) ∧
    (∀ (w : LinesWindow) (lineCount : ℕ) (fast : Bool) (m : ℤ),
      ¬((scanLineWidths w fast).2 = true ∧ w.rendStart = 1 ∧ w.rendEnd = lineCount) →
      m ≤ (updateLineWidths w lineCount fast m).1) := by
  refine ⟨fun ws m => le_foldl_ensureMaxLineWidth ws m, ?_, fun m => rfl, ?_, ?_⟩
  · intro m lw
    rw [ensureMaxLineWidth]
    split
    · next h => simp [h]
    · next h => simp [h]
  · intro w lineCount fast m h1 h2 h3
    simp [updateLineWidths, h1, h2, h3]
  · intro w lineCount fast m h
    have hcond : ((scanLineWidths w fast).2 && (w.rendStart == 1) &&
        (w.rendEnd == lineCount)) = false := by
      by_contra hc
      rw [Bool.not_eq_false] at hc
      simp only [Bool.and_eq_true, beq_iff_eq] at hc
      exact h ⟨hc.1.1, hc.1.2, hc.2⟩
    simp only [updateLineWidths, hcond, Bool.false_eq_true, if_false]
    exact le_ensureMaxLineWidth m _

/-- Witness for claim C7 at concrete inputs: a notifying call, a full-window
reset pass over `wWindow`, and a non-full-window pass that keeps the old
maximum 7. -/
theorem c7_witness :
    (ensureMaxLineWidth 3 (5 : ℚ)).2 = decide ((3 : ℤ) < ⌈(5 : ℚ)⌉) ∧
    ((scanLineWidths wWindow false).2 = true ∧ wWindow.rendStart = 1 ∧
      wWindow.rendEnd = 2 ∧
      (updateLineWidths wWindow 2 false 7).1 =
        (ensureMaxLineWidth 0 (scanLineWidths wWindow false).1).1) ∧
    (¬((scanLineWidths wWindow false).2 = true ∧ wWindow.rendStart = 1 ∧
        wWindow.rendEnd = 3) ∧
      (7 : ℤ) ≤ (updateLineWidths wWindow 3 false 7).1) := by
  have hscan : (scanLineWidths wWindow false).2 = true := rfl
  have hno : ¬((scanLineWidths wWindow false).2 = true ∧ wWindow.rendStart = 1 ∧
      wWindow.rendEnd = 3) := by
    intro hc
    exact absurd hc.2.2 (by decide)
  exact ⟨c7_max_line_width_tracking.2.1 3 5,
    ⟨hscan, rfl, rfl,
      c7_max_line_width_tracking.2.2.2.1 wWindow 2 false 7 hscan rfl rfl⟩,
    ⟨hno, c7_max_line_width_tracking.2.2.2.2 wWindow 3 false 7 hno⟩⟩

/-- Claim C10: after every `_updateLineWidths` pass, fast or slow, over any
window and any previous tracked maximum, the tracked maximum is at least 1:
the local maximum is seeded with 1 before scanning the window. -/
theorem c10_updated_max_at_least_one (w : LinesWindow) (lineCount : ℕ)
    (fast : Bool) (m : ℤ) :
    1 ≤ (updateLineWidths w lineCount fast m).1 := by
  have h1 : (1 : ℚ) ≤ (scanLineWidths w fast).1 := by
    have h := foldl_lineWidthStep_fst_le w fast (windowLineNumbers w) (1, true)
    simpa [scanLineWidths] using h
  have hceil : 1 ≤ ⌈(scanLineWidths w fast).1⌉ := by
    have h0 : (0 : ℚ) < (scanLineWidths w fast).1 := lt_of_lt_of_le one_pos h1
    have := Int.ceil_pos.mpr h0
    omega
  have key : ∀ m1 : ℤ, 1 ≤ (ensureMaxLineWidth m1 (scanLineWidths w fast).1).1 := by
    intro m1
    rw [ensureMaxLineWidth]
    split
    · exact hceil
    · next hnot => exact le_trans hceil (not_lt.mp hnot)
  simp only [updateLineWidths]
  exact key _

/-! ## Monospace assumption checker -/

/-- One `monospaceStep` either keeps the accumulator (and then a needing line
is no wider than the accumulated width) or installs the current line as the
new champion without lowering the accumulated width. -/
lemma monospaceStep_cases (w : LinesWindow) (acc : ℤ × ℚ) (n : ℕ) :
    (monospaceStep w acc n = acc ∧
      ((w.line n).needsMonospaceFontCheck = true → (w.line n).width ≤ acc.2)) ∨
    ((w.line n).needsMonospaceFontCheck = true ∧ acc.2 ≤ (w.line n).width ∧
      monospaceStep w acc n = ((n : ℤ), (w.line n).width)) := by
  by_cases hneed : (w.line n).needsMonospaceFontCheck = true
  · by_cases hlt : acc.2 < (w.line n).width
    · exact Or.inr ⟨hneed, le_of_lt hlt, by rw [monospaceStep]; simp [hneed, hlt]⟩
    · exact Or.inl ⟨by rw [monospaceStep]; simp [hneed, hlt], fun _ => not_lt.mp hlt⟩
  · exact Or.inl ⟨by rw [monospaceStep]; simp [hneed], fun h => absurd h hneed⟩

/-- The selection fold of `_checkMonospaceFontAssumptions` either returns its
accumulator or a windowed line that needs the check; it never lowers the
accumulated width, and every needing line of the list is bounded by the
resulting width. -/
lemma foldl_monospaceStep_spec (w : LinesWindow) :
    ∀ (l : List ℕ) (acc : ℤ × ℚ),
      (l.foldl (monospaceStep w) acc = acc ∨
        ∃ ln ∈ l, (w.line ln).needsMonospaceFontCheck = true ∧
          l.foldl (monospaceStep w) acc = ((ln : ℤ), (w.line ln).width)) ∧
      acc.2 ≤ (l.foldl (monospaceStep w) acc).2 ∧
      ∀ n ∈ l, (w.line n).needsMonospaceFontCheck = true →
        (w.line n).width ≤ (l.foldl (monospaceStep w) acc).2 := by
  intro l
  induction l with
  | nil =>
    intro acc
    exact ⟨Or.inl rfl, le_refl _, by simp⟩
  | cons n t ih =>
    intro acc
    rw [List.foldl_cons]
    obtain ⟨ih1, ih2, ih3⟩ := ih (monospaceStep w acc n)
    have hstep := monospaceStep_cases w acc n
    have hstep2 : acc.2 ≤ (monospaceStep w acc n).2 := by
      rcases hstep with ⟨heq, _⟩ | ⟨_, hle, heq⟩
      · rw [heq]
      · rw [heq]; exact hle
    refine ⟨?_, le_trans hstep2 ih2, ?_⟩
    · rcases ih1 with h1 | ⟨ln, hln, hneed, heq⟩
      · rcases hstep with ⟨heq, _⟩ | ⟨hneed, _, heq⟩
        · exact Or.inl (by rw [h1, heq])
        · exact Or.inr ⟨n, List.mem_cons_self n t, hneed, by rw [h1, heq]⟩
      · exact Or.inr ⟨ln, List.mem_cons_of_mem n hln, hneed, heq⟩
    · intro m hmem hneedm
      rcases List.mem_cons.mp hmem with rfl | hmem2
      · rcases hstep with ⟨_, himp⟩ | ⟨_, _, heq⟩
        · exact le_trans (himp hneedm) (le_trans hstep2 ih2)
        · calc (w.line m).width = (monospaceStep w acc m).2 := by rw [heq]
            _ ≤ _ := ih2
      · exact ih3 m hmem2 hneedm

/-- When no line of the list needs the monospace check, the selection fold
returns its accumulator unchanged. -/
lemma foldl_monospaceStep_id (w : LinesWindow) (l : List ℕ) (acc : ℤ × ℚ)
    (h : ∀ n ∈ l, (w.line n).needsMonospaceFontCheck = false) :
    l.foldl (monospaceStep w) acc = acc := by
  induction l generalizing acc with
  | nil => rfl
  | cons n t ih =>
    rw [List.foldl_cons]
    have hn := h n (List.mem_cons_self n t)
    have hstep : monospaceStep w acc n = acc := by
      rw [monospaceStep]; simp [hn]
    rw [hstep]
    exact ih _ (fun m hm => h m (List.mem_cons_of_mem n hm))

/-- Claim C8: a monospace-assumption check pass validates exactly a widest
windowed line among those needing the check: if it validates, no line is
invalidated; if it fails, every windowed line is invalidated; and when no
windowed line needs the check the pass does nothing. -/
theorem c8_monospace_check (w : LinesWindow)
    (hw : ∀ n ∈ windowLineNumbers w, 0 ≤ (w.line n).width) :
    ((∀ n ∈ windowLineNumbers w, (w.line n).needsMonospaceFontCheck = false) →
      checkMonospaceFontAssumptions w = []) ∧
    (∀ n0 ∈ windowLineNumbers w, (w.line n0).needsMonospaceFontCheck = true →
      ∃ ln ∈ windowLineNumbers w,
        (w.line ln).needsMonospaceFontCheck = true ∧
        (∀ n ∈ windowLineNumbers w, (w.line n).needsMonospaceFontCheck = true →
          (w.line n).width ≤ (w.line ln).width) ∧
        checkMonospaceFontAssumptions w =
          (if (w.line ln).monospaceAssumptionsAreValid then [] else windowLineNumbers w)) := by
  constructor
  · intro h
    have hsel : selectLongestLine w = (-1, -1) := by
      rw [selectLongestLine]
      exact foldl_monospaceStep_id w (windowLineNumbers w) (-1, -1) h
    rw [checkMonospaceFontAssumptions, hsel]
    simp
  · intro n0 hmem0 hneed0
    obtain ⟨h1, _, h3⟩ := foldl_monospaceStep_spec w (windowLineNumbers w) (-1, -1)
    rcases h1 with h1 | ⟨ln, hln, hneed, heq⟩
    · exfalso
      have hub := h3 n0 hmem0 hneed0
      rw [h1] at hub
      have h0 := hw n0 hmem0
      have : (0 : ℚ) ≤ -1 := le_trans h0 hub
      norm_num at this
    · have hsel : selectLongestLine w = ((ln : ℤ), (w.line ln).width) := by
        rw [selectLongestLine]; exact heq
      refine ⟨ln, hln, hneed, ?_, ?_⟩
      · intro n hm hn
        have := h3 n hm hn
        rwa [heq] at this
      · rw [checkMonospaceFontAssumptions, hsel]
        have hne : ((ln : ℤ)) ≠ -1 := by omega
        rw [if_neg hne]
        simp

/-- Witness for claim C8 on the concrete window `wWindow`, whose two lines
both need the check: line 2 is the widest and validates, so nothing is
invalidated. -/
theorem c8_witness :
    (∀ n ∈ windowLineNumbers wWindow, 0 ≤ (wWindow.line n).width) ∧
    (1 ∈ windowLineNumbers wWindow ∧ (wWindow.line 1).needsMonospaceFontCheck = true) ∧
    (∃ ln ∈ windowLineNumbers wWindow,
      (wWindow.line ln).needsMonospaceFontCheck = true ∧
      (∀ n ∈ windowLineNumbers wWindow, (wWindow.line n).needsMonospaceFontCheck = true →
        (wWindow.line n).width ≤ (wWindow.line ln).width) ∧
      checkMonospaceFontAssumptions wWindow =
        (if (wWindow.line ln).monospaceAssumptionsAreValid then []
        else windowLineNumbers wWindow)) := by
  have hw : ∀ n ∈ windowLineNumbers wWindow, 0 ≤ (wWindow.line n).width := by
    intro n _
    exact_mod_cast Nat.cast_nonneg n
  have hmem : 1 ∈ windowLineNumbers wWindow := by decide
  exact ⟨hw, ⟨hmem, rfl⟩,
    (c8_monospace_check wWindow hw).2 1 hmem rfl⟩

/-! ## Windowed lookups -/

/-- The resolved line number of `_getLineNumberFor` is either the sentinel
-1 or a line inside the rendered window. -/
lemma getLineNumberFor_spec (w : LinesWindow) (node : ℕ) :
    getLineNumberFor w node = -1 ∨
    ((w.rendStart : ℤ) ≤ getLineNumberFor w node ∧
      getLineNumberFor w node ≤ (w.rendEnd : ℤ)) := by
  rw [getLineNumberFor]
  cases hfind : (windowLineNumbers w).find? (fun lineNumber => w.domNode lineNumber == node) with
  | none => exact Or.inl rfl
  | some m =>
    right
    have hmem := List.mem_of_find?_eq_some hfind
    rw [windowLineNumbers, List.mem_range'_1] at hmem
    have hb : w.rendStart ≤ m ∧ m ≤ w.rendEnd := by omega
    constructor
    · show (w.rendStart : ℤ) ≤ (m : ℤ)
      exact_mod_cast hb.1
    · show (m : ℤ) ≤ (w.rendEnd : ℤ)
      exact_mod_cast hb.2

/-- Claim C9: a DOM-offset-to-position lookup whose resolved line number lies
outside the rendered window returns null, and `getLineWidth` returns the
sentinel -1 for every line number outside the rendered window. -/
theorem c9_out_of_window (vm : ViewModelData) (w : LinesWindow)
    (node : ℕ) (offset : ℕ) (ln : ℕ)
    (hout : getLineNumberFor w node < (w.rendStart : ℤ) ∨
      (w.rendEnd : ℤ) < getLineNumberFor w node)
    (hln : ln < w.rendStart ∨ ln > w.rendEnd) :
    getPositionFromDOMInfo vm w (some node) offset = none ∧
    getLineWidth w ln = -1 := by
  constructor
  · rcases getLineNumberFor_spec w node with hneg | ⟨hlo, hhi⟩
    · rw [getPositionFromDOMInfo]
      simp [hneg]
    · exfalso
      rcases hout with h | h
      · exact absurd hlo (not_le.mpr h)
      · exact absurd hhi (not_le.mpr h)
  · rw [getLineWidth, if_pos hln]

/-- Witness for claim C9: node 5 is rendered on no line of `wWindow`, so the
lookup resolves to -1 and returns null; line 9 is outside the window, so its
width query returns -1. -/
theorem c9_witness :
    (getLineNumberFor wWindow 5 < (wWindow.rendStart : ℤ) ∨
      (wWindow.rendEnd : ℤ) < getLineNumberFor wWindow 5) ∧
    ((9 : ℕ) < wWindow.rendStart ∨ (9 : ℕ) > wWindow.rendEnd) ∧
    (getPositionFromDOMInfo wViewModel wWindow (some 5) 0 = none ∧
      getLineWidth wWindow 9 = -1) := by
  have hout : getLineNumberFor wWindow 5 < (wWindow.rendStart : ℤ) ∨
      (wWindow.rendEnd : ℤ) < getLineNumberFor wWindow 5 := by
    left
    decide
  have hln : (9 : ℕ) < wWindow.rendStart ∨ (9 : ℕ) > wWindow.rendEnd := by
    right
    decide
  exact ⟨hout, hln, c9_out_of_window wViewModel wWindow 5 0 9 hout hln⟩

end ViewLinesWebgl
